import Mathlib

/-! Shallow embedding of the SupportAI ticket triage-and-response pipeline
(`support-ai/src`): the workflow node functions, their deterministic
fallback paths, the escalation gate and the final output assembly.
External capability calls are modelled by explicit outcome parameters;
JSON numbers are rationals; exception messages are abstracted to fixed
diagnostic strings (only their presence matters to the embedded code). -/

namespace SupportAI

/-- Outcome of one external capability call as the agents see it: the call
raised an exception, it returned unparseable JSON, or it returned a parsed
payload. -/
inductive CapOutcome (α : Type) where
  | callFail
  | parseFail
  | ok (a : α)

/-- Worker for `pyWords`: accumulate the current word (reversed) and cut at
whitespace, dropping empty pieces. -/
def splitWsGo : List Char → List Char → List String
  | [], acc => if acc.isEmpty then [] else [String.mk acc.reverse]
  | c :: cs, acc =>
    if c.isWhitespace then
      if acc.isEmpty then splitWsGo cs []
      else String.mk acc.reverse :: splitWsGo cs []
    else
      splitWsGo cs (c :: acc)

/-- Python `s.split()` — split on whitespace runs, dropping empty pieces. -/
def pyWords (s : String) : List String :=
  splitWsGo s.data []

/-- Number of whitespace-separated words, `len(s.split())`. -/
def wordCount (s : String) : Nat :=
  (pyWords s).length

/-- Python `s.capitalize()`: first character uppercased, the rest lowered. -/
def pyCapitalize (s : String) : String :=
  match s.data with
  | [] => ""
  | c :: cs => String.mk (c.toUpper :: cs.map Char.toLower)

/-- Worker for `pyTitle`: uppercase a letter standing after a non-letter,
lower the other letters, as Python `s.title()` does. -/
def pyTitleGo : List Char → Bool → List Char
  | [], _ => []
  | c :: cs, prevAlpha =>
    if c.isAlpha then
      (if prevAlpha then c.toLower else c.toUpper) :: pyTitleGo cs true
    else
      c :: pyTitleGo cs false

/-- Python `s.title()`. -/
def pyTitle (s : String) : String :=
  String.mk (pyTitleGo s.data false)

/-- Substring scan over every suffix of the haystack. -/
def infixScan (pat : List Char) : List Char → Bool
  | [] => pat.isPrefixOf []
  | c :: cs => pat.isPrefixOf (c :: cs) || infixScan pat cs

/-- Characters of a string lowercased, Python `s.lower()`. -/
def lowerChars (s : String) : List Char :=
  s.data.map Char.toLower

/-- Case-insensitive substring test: `pat.lower() in hay.lower()`, also how
`re.search` behaves on a literal pattern under `re.IGNORECASE`. -/
def containsCI (hay pat : String) : Bool :=
  infixScan (lowerChars pat) (lowerChars hay)

/-- Does `hay` start with `pre`, then one or more digits, then `suf`? -/
def startsWithNumAt (pre suf hay : List Char) : Bool :=
  if pre.isPrefixOf hay then
    let rest := hay.drop pre.length
    let ds := rest.takeWhile Char.isDigit
    !ds.isEmpty && suf.isPrefixOf (rest.drop ds.length)
  else
    false

/-- Scan of `startsWithNumAt` over every suffix. -/
def numPatternScan (pre suf : List Char) : List Char → Bool
  | [] => startsWithNumAt pre suf []
  | c :: cs => startsWithNumAt pre suf (c :: cs) || numPatternScan pre suf cs

/-- Case-insensitive search for the pattern `pre`, a digit run, `suf` —
the shape of the regexes `within (\d+) hours` and `fixed in (\d+) days`. -/
def containsNumPattern (pre suf hay : String) : Bool :=
  numPatternScan pre.data suf.data (lowerChars hay)

/-! Data produced by the workflow stages (the dictionaries stored in the
LangGraph `WorkflowState`). Parsed-JSON payloads keep every field optional,
the dictionaries the stages store are total after validation. -/

/-- Parsed classification-capability JSON for intent detection. -/
structure IntentJson where
  problem_type : Option String
  sentiment : Option String
  confidence : Option ℚ
  reasoning : Option String
deriving DecidableEq

/-- The `intent` dictionary `detect_intent` stores. -/
structure IntentData where
  problem_type : String
  sentiment : String
  confidence : ℚ
  reasoning : Option String
deriving DecidableEq

/-- Parsed classification-capability JSON for triage. The LLM dictionary may
also carry a `sentiment` key, which the validation loop does not strip. -/
structure TriageJson where
  category : Option String
  subcategory : Option String
  priority : Option String
  sla_hours : Option ℚ
  suggested_team : Option String
  confidence : Option ℚ
  sentiment : Option String
deriving DecidableEq

/-- The `triage` dictionary `classify_triage` stores. `sentiment` records
the optional extra key of the parsed JSON; no code path of the repository
ever writes it. -/
structure TriageData where
  category : String
  subcategory : String
  priority : String
  sla_hours : Int
  suggested_team : String
  confidence : ℚ
  sentiment : Option String
deriving DecidableEq

/-- One knowledge-base candidate document as the workflow threads it:
the dictionary built by `vector_search_node`, possibly rescored by the
reranking capability (`relevance_score`). -/
structure Doc where
  doc_id : String
  title : String
  content : String
  score : ℚ
  relevance_score : Option ℚ
  url : String
  category : String
deriving DecidableEq

/-- One raw hit from `vector_store.search`: `doc_id`, `content` and the
metadata keys the formatter reads. -/
structure SearchHit where
  doc_id : String
  content : String
  title : Option String
  url : Option String
  category : Option String
deriving DecidableEq

/-- Parsed generation-capability JSON for the draft. -/
structure DraftJson where
  greeting : Option String
  body : Option String
  closing : Option String
  tone : Option String
deriving DecidableEq

/-- The `draft` dictionary `generate_draft` stores. -/
structure DraftData where
  greeting : String
  body : String
  closing : String
  tone : String
deriving DecidableEq

/-- Result of `check_policy_violations` (the rule-based check): exactly the
keys the dictionary in `validators.py` holds — note there is no
`escalation_needed` and no `sla_mentioned` key. -/
structure RuleChecks where
  refund_promise : Bool
  sla_promise : Bool
  escalation_triggers : List String
deriving DecidableEq

/-- Parsed classification-capability JSON for the semantic policy check;
`perform_llm_policy_check` returns this dictionary unchecked, so every key
is optional. -/
structure LlmPolicy where
  refund_promise : Option Bool
  sla_mentioned : Option Bool
  escalation_needed : Option Bool
  compliance : Option String
  violations : Option (List String)
deriving DecidableEq

/-- The `policy_check` dictionary `check_policies` stores. -/
structure PolicyData where
  refund_promise : Bool
  sla_mentioned : Bool
  escalation_needed : Bool
  compliance : String
  violations : List String
deriving DecidableEq

/-- Projection of a candidate document quoted in the final output. -/
structure CitationData where
  doc_id : String
  chunk_id : String
  title : String
  score : ℚ
  url : String
deriving DecidableEq

/-- The dictionary `validate_output_node` assembles as `final_output`. -/
structure FinalAssembly where
  ticket_id : String
  timestamp : Option ℚ
  triage : Option TriageData
  answer_draft : Option DraftData
  citations : List CitationData
  policy_check : Option PolicyData
deriving DecidableEq

/-- The LangGraph `WorkflowState` TypedDict. `timestamp` and `citations`
model dictionary keys that `validate_output_node` reads with a default but
that no stage ever writes and the TypedDict does not declare. -/
structure WState where
  ticket_id : String
  original_message : String
  customer_email : Option String
  intent : Option IntentData
  triage : Option TriageData
  search_queries : Option (List String)
  retrieved_docs : Option (List Doc)
  reranked_docs : Option (List Doc)
  draft : Option DraftData
  policy_check : Option PolicyData
  final_output : Option FinalAssembly
  timestamp : Option ℚ
  citations : Option (List CitationData)
  errors : List String
deriving DecidableEq

/-! The intent-detection agent (`intent_detector.py`). -/

/-- Fill missing required keys of parsed intent JSON: string fields default
to the marker value and `confidence` to 0.0, as `detect_intent` does. -/
def normalizeIntent (j : IntentJson) : IntentData :=
  { problem_type := j.problem_type.getD "unknown"
    sentiment := j.sentiment.getD "unknown"
    confidence := j.confidence.getD 0
    reasoning := j.reasoning }

/-- The `detect_intent` node. A raised call lands in the outer handler
(diagnostic appended, confidence 0.0); an unparseable response takes the
inner JSON fallback (confidence 0.5, nothing appended to `errors`). -/
def detect_intent (outcome : CapOutcome IntentJson) (state : WState) : WState :=
  match outcome with
  | .callFail =>
    { state with
        errors := state.errors ++ [ "Intent detection error"]
        intent := some ⟨ "other", "neutral", 0, some "Error during processing"⟩ }
  | .parseFail =>
    { state with
        intent := some ⟨ "other", "neutral", mkRat 1 2, some "Failed to parse LLM response"⟩ }
  | .ok j =>
    { state with intent := some (normalizeIntent j) }

/-! The triage-classification agent (`triage_classifier.py`). -/

/-- The deterministic lookup-table row of `get_fallback_triage` keyed by
`problem_type` (`type_mapping`), before the sentiment override and the
confidence of the fallback are applied. -/
def fallbackBase (problem_type : String) : TriageData :=
  if problem_type = "billing" then
    ⟨ "Billing - Invoice Issue", "General Billing", "P2", 24, "Finance Team", 0, none⟩
  else if problem_type = "technical" then
    ⟨ "Technical - General", "Technical Issue", "P2", 24, "Technical Team", 0, none⟩
  else if problem_type = "account" then
    ⟨ "Account - Access", "Account Issue", "P2", 24, "Account Team", 0, none⟩
  else if problem_type = "feature_request" then
    ⟨ "Feature Request", "New Feature", "P3", 48, "Product Team", 0, none⟩
  else
    ⟨ "General Inquiry", "General Question", "P2", 24, "Support Team", 0, none⟩

/-- `get_fallback_triage`: the table row, the sentiment override for
`frustrated` (priority P1, 4 SLA hours), and confidence fixed at 0.5. -/
def get_fallback_triage (problem_type sentiment : String) : TriageData :=
  let base := fallbackBase problem_type
  let base :=
    if sentiment = "frustrated" then
      { base with priority := "P1", sla_hours := 4 }
    else
      base
  { base with confidence := mkRat 1 2 }

/-- View a triage dictionary as parsed JSON with every key present, the
shape the fallback dictionary has when the validation loop runs over it. -/
def triageJsonOf (t : TriageData) : TriageJson :=
  ⟨some t.category, some t.subcategory, some t.priority, some (t.sla_hours : ℚ),
    some t.suggested_team, some t.confidence, t.sentiment⟩

/-- The validation loop of `classify_triage`: missing keys get
`get_default_value`, a priority outside {P1, P2, P3} is coerced to P2, and
`sla_hours` that is not an integer ≥ 1 is defaulted to 24. -/
def validateTriage (j : TriageJson) : TriageData :=
  let priority0 := j.priority.getD "P2"
  let sla0 : ℚ := j.sla_hours.getD 24
  { category := j.category.getD "General Inquiry"
    subcategory := j.subcategory.getD "General Question"
    priority :=
      if priority0 = "P1" ∨ priority0 = "P2" ∨ priority0 = "P3" then priority0 else "P2"
    sla_hours := if sla0.den = 1 ∧ 1 ≤ sla0 then sla0.num else 24
    suggested_team := j.suggested_team.getD "Support Team"
    confidence := j.confidence.getD 0
    sentiment := j.sentiment }

/-- The `classify_triage` node. A raised call lands in the outer handler,
which appends a diagnostic and uses the fallback for the hardcoded pair
("other", "neutral"); an unparseable response uses the fallback for the
problem type and sentiment read from the intent dictionary, then the same
validation loop runs over the resulting dictionary. -/
def classify_triage (outcome : CapOutcome TriageJson) (state : WState) : WState :=
  match outcome with
  | .callFail =>
    { state with
        errors := state.errors ++ [ "Triage classification error"]
        triage := some (get_fallback_triage "other" "neutral") }
  | .parseFail =>
    let problem_type := (state.intent.map (fun i => i.problem_type)).getD "other"
    let sentiment := (state.intent.map (fun i => i.sentiment)).getD "neutral"
    { state with
        triage := some (validateTriage (triageJsonOf (get_fallback_triage problem_type sentiment))) }
  | .ok j =>
    { state with triage := some (validateTriage j) }

/-! The query-expansion agent (`query_expander.py`). -/

/-- The stop words excluded from term-derived queries. -/
def stopTerms : List String :=
  [ "that", "this", "with", "from", "have", "been"]

/-- The `type_queries` table; an unknown problem type falls back to the
`other` row, as `type_queries.get(problem_type, type_queries["other"])`. -/
def typeQueries (problem_type : String) : List String :=
  if problem_type = "billing" then
    [ "billing issue", "payment problem", "invoice error", "charge dispute"]
  else if problem_type = "technical" then
    [ "technical problem", "system error", "login issue", "feature not working"]
  else if problem_type = "account" then
    [ "account access", "password reset", "profile update", "account settings"]
  else if problem_type = "feature_request" then
    [ "new feature", "improvement request", "enhancement suggestion"]
  else
    [ "general inquiry", "help needed", "support request"]

/-- The deduplication loop at the end of `generate_fallback_queries`: keep
the first occurrence of each query whose word count lies in [2, 8]. -/
def dedupFilter : List String → List String → List String
  | [], _ => []
  | q :: rest, seen =>
    if q ∉ seen ∧ 2 ≤ wordCount q ∧ wordCount q ≤ 8 then
      q :: dedupFilter rest (q :: seen)
    else
      dedupFilter rest seen

/-- `generate_fallback_queries`: up to three table rows for the problem
type, then `<term> issue` / `<term> problem` for the first two key terms
(words of more than three characters, stop words excluded), deduplicated,
word count in [2, 8], capped at five. -/
def generate_fallback_queries (ticket_text problem_type _category : String) : List String :=
  let words := pyWords (String.mk (lowerChars ticket_text))
  let key_terms := (words.filter (fun w => 3 < w.length)).take 5
  let base_queries := typeQueries problem_type
  let term_queries :=
    (key_terms.take 2).foldl
      (fun acc term =>
        if term ∈ stopTerms then acc
        else acc ++ [term ++ " issue", term ++ " problem"])
      []
  let queries := base_queries.take 3 ++ term_queries
  (dedupFilter queries []).take 5

/-- The validation loop of `expand_queries`: collect candidates whose word
count lies in [3, 10], stopping once five are collected (the check runs
after every candidate, appended or not). -/
def collectValid : List String → List String → List String
  | [], acc => acc
  | q :: rest, acc =>
    let acc := if 3 ≤ wordCount q ∧ wordCount q ≤ 10 then acc ++ [q] else acc
    if 5 ≤ acc.length then acc else collectValid rest acc

/-- The `expand_queries` node. A raised call lands in the outer handler
(diagnostic appended, rule-based fallback for ("other", "General")); an
unparseable response substitutes the rule-based fallback before the
validation loop; if validation leaves nothing, the rule-based fallback is
stored unvalidated. -/
def expand_queries (outcome : CapOutcome (List String)) (state : WState) : WState :=
  match outcome with
  | .callFail =>
    { state with
        errors := state.errors ++ [ "Query expansion error"]
        search_queries := some (generate_fallback_queries state.original_message "other" "General") }
  | _ =>
    let problem_type := (state.intent.map (fun i => i.problem_type)).getD "other"
    let category := (state.triage.map (fun t => t.category)).getD "General Inquiry"
    let queries :=
      match outcome with
      | .ok qs => qs
      | _ => generate_fallback_queries state.original_message problem_type category
    let validated := collectValid queries []
    let validated :=
      if validated = [] then
        generate_fallback_queries state.original_message problem_type category
      else
        validated
    { state with search_queries := some validated }

/-! Retrieval: `vector_search_node` and the reranker (`reranker.py`). -/

/-- The formatting loop of `vector_search_node`: metadata keys defaulted,
provisional score the placeholder 0.8. -/
def formatDoc (hit : SearchHit) : Doc :=
  { doc_id := hit.doc_id
    title := hit.title.getD "Untitled"
    content := hit.content
    score := mkRat 8 10
    relevance_score := none
    url := hit.url.getD ""
    category := hit.category.getD "" }

/-- The `vector_search_node`: with no queries it stores an empty list and
returns; a raised embedding or store call lands in the handler (diagnostic
appended, empty list); otherwise the hits are formatted. -/
def vector_search_node (outcome : Except Unit (List SearchHit)) (state : WState) : WState :=
  let queries := (state.search_queries.getD [])
  if queries.isEmpty then
    { state with retrieved_docs := some [] }
  else
    match outcome with
    | .ok hits =>
      { state with retrieved_docs := some (hits.map formatDoc) }
    | .error _ =>
      { state with
          errors := state.errors ++ [ "Vector search error"]
          retrieved_docs := some [] }

namespace Reranker

/-- The scoring-and-filtering loop of `Reranker.rerank`: each document is
scored by its `relevance_score` if present, else its search score; those
below 0.3 are dropped, the rest keep the chosen score. -/
def scoreFilter (reranked : List Doc) : List Doc :=
  reranked.filterMap (fun d =>
    let s := d.relevance_score.getD d.score
    if mkRat 3 10 ≤ s then some { d with score := s } else none)

/-- `Reranker.rerank`: empty input short-circuits; a raised capability call
lands in the handler, which returns the first `top_k` input documents with
score overwritten to 0.5; a successful call is filtered at 0.3 and
truncated to `top_k`. -/
def rerank (documents : List Doc) (outcome : Except Unit (List Doc)) (top_k : Nat) : List Doc :=
  if documents.isEmpty then []
  else
    match outcome with
    | .ok reranked => (scoreFilter reranked).take top_k
    | .error _ => (documents.take top_k).map (fun d => { d with score := mkRat 1 2 })

end Reranker

/-- The `rerank_node`: with no retrieved documents or no queries the
retrieved list is passed through unchanged; otherwise `Reranker.rerank`
runs with `top_k = 3`. -/
def rerank_node (outcome : Except Unit (List Doc)) (state : WState) : WState :=
  let retrieved := state.retrieved_docs.getD []
  let queries := state.search_queries.getD []
  if retrieved.isEmpty ∨ queries.isEmpty then
    { state with reranked_docs := some retrieved }
  else
    { state with reranked_docs := some (Reranker.rerank retrieved outcome 3) }

/-! Response templates (`response_templates.py`). -/

/-- One entry of `RESPONSE_TEMPLATES`. -/
structure RTemplate where
  greeting : String
  body_template : String
  tone : String
deriving DecidableEq

/-- The `billing_invoice` template. -/
def templateBillingInvoice : RTemplate :=
  { greeting := "Dear {customer_name},"
    body_template := "Thank you for bringing this billing issue to our attention. I understand how important it is to have accurate billing records.\n\nRegarding your {issue_description}, our Finance team specializes in these matters and will investigate promptly.\n\nWhat to expect:\n• Review of your account within 24 hours\n• Resolution typically within 3-5 business days\n• Email notification once resolved\n\nIf you have any additional details or documentation, please reply to this ticket.\n\nBest regards,\nSupport Team"
    tone := "professional_helpful" }

/-- The `billing_refund` template. -/
def templateBillingRefund : RTemplate :=
  { greeting := "Dear {customer_name},"
    body_template := "I appreciate you letting us know about this billing discrepancy. Duplicate charges can be frustrating, and I want to assure you we\x27ll look into this right away.\n\nOur Finance team will:\n1. Review your transaction history\n2. Verify the charge details\n3. Process any necessary adjustments\n4. Notify you of the resolution\n\nThis process typically takes 3-5 business days. You\x27ll receive an email confirmation once the review is complete.\n\nPlease let us know if there\x27s anything else we can help with in the meantime.\n\nBest regards,\nSupport Team"
    tone := "empathetic_professional" }

/-- The `technical_login` template. -/
def templateTechnicalLogin : RTemplate :=
  { greeting := "Dear {customer_name},"
    body_template := "I\x27m sorry to hear you\x27re having trouble accessing your account. Let\x27s get you back in quickly.\n\nTo reset your password:\n1. Visit our login page\n2. Click \"Forgot Password\"\n3. Enter your email address\n4. Follow the instructions in the reset email\n\nIf you\x27re still unable to access your account after resetting your password, please reply with:\n• The exact error message you\x27re seeing\n• What device/browser you\x27re using\n• Any recent changes to your account\n\nOur Technical team will assist you further if needed.\n\nBest regards,\nSupport Team"
    tone := "helpful_supportive" }

/-- The `account_access` template, also the default for unmapped
categories. -/
def templateAccountAccess : RTemplate :=
  { greeting := "Dear {customer_name},"
    body_template := "Thank you for reaching out about your account access. I understand how important it is to have reliable access to your services.\n\nTo help resolve this quickly, could you please provide:\n• Your account email address\n• The specific error or issue you\x27re experiencing\n• When this started happening\n• Any recent changes you\x27ve made\n\nOnce we have this information, our Account team can investigate and get you back up and running.\n\nIn the meantime, you can also try:\n• Clearing your browser cache and cookies\n• Using a different browser or device\n• Checking our status page for any ongoing issues\n\nBest regards,\nSupport Team"
    tone := "professional_helpful" }

/-- The `feature_request` template. -/
def templateFeatureRequest : RTemplate :=
  { greeting := "Dear {customer_name},"
    body_template := "Thank you for your suggestion! We appreciate you taking the time to share your ideas for improving our service.\n\nYour feedback about {feature_description} has been noted and will be reviewed by our Product team. We regularly review customer suggestions to help prioritize our development roadmap.\n\nWhile we can\x27t commit to specific timelines, your input helps us understand what features are most important to our users.\n\nIf you\x27d like to:\n• Provide more details about your use case\n• Share how this feature would help you\n• See similar requests from other customers\n\nPlease feel free to reply to this ticket.\n\nThank you again for helping us improve!\n\nBest regards,\nSupport Team"
    tone := "friendly_appreciative" }

/-- `get_response_template`: `category_mapping` keyed by category text, an
unmapped category defaulting to the `account_access` template. -/
def get_response_template (category : String) : RTemplate :=
  if category = "Billing - Invoice Issue" then templateBillingInvoice
  else if category = "Billing - Refund" then templateBillingRefund
  else if category = "Technical - Login" then templateTechnicalLogin
  else if category = "Account - Access" then templateAccountAccess
  else if category = "Feature Request" then templateFeatureRequest
  else templateAccountAccess

/-- One row of `TONE_ADJUSTMENTS`. -/
structure ToneAdj where
  add_empathy : Bool
  use_apology : Bool
  be_reassuring : Bool
  keep_concise : Bool
deriving DecidableEq

/-- `TONE_ADJUSTMENTS.get(sentiment, TONE_ADJUSTMENTS["neutral"])`. -/
def toneAdjustments (sentiment : String) : ToneAdj :=
  if sentiment = "frustrated" then ⟨true, true, true, false⟩
  else if sentiment = "satisfied" then ⟨false, false, false, true⟩
  else ⟨false, false, true, true⟩

/-- `adjust_tone_for_sentiment`: empathy and apology clauses are prepended
(apology outermost), the reassurance clause is appended. -/
def adjust_tone_for_sentiment (t : RTemplate) (sentiment : String) : RTemplate :=
  let adj := toneAdjustments sentiment
  let body := t.body_template
  let body :=
    if adj.add_empathy then "I understand this can be frustrating. " ++ body else body
  let body :=
    if adj.use_apology then "I\x27m sorry for the inconvenience. " ++ body else body
  let body :=
    if adj.be_reassuring then
      body ++ "\n\nRest assured we\x27re here to help resolve this for you."
    else body
  { t with body_template := body }

/-- `format_response_template`: substitute the placeholders everywhere they
occur, as Python `str.format` does on these templates. -/
def format_response_template (t : RTemplate)
    (customer_name issue_description feature_description : String) : RTemplate :=
  { t with
      greeting := t.greeting.replace "{customer_name}" customer_name
      body_template :=
        ((t.body_template.replace "{customer_name}" customer_name).replace
          "{issue_description}" issue_description).replace
          "{feature_description}" feature_description }

/-! The draft-generation agent (`draft_generator.py`). -/

/-- `extract_customer_name`: the local part of the email address, by dotted
parts capitalized, else underscores and hyphens spaced and title-cased,
with "Customer" for absent or too-short results. -/
def extract_customer_name (email : String) : String :=
  if email = "" ∨ ¬ email.contains '@' then "Customer"
  else
    let local_part := (email.splitOn "@").headD ""
    let viaDots : Option String :=
      if local_part.contains '.' then
        let parts := local_part.splitOn "."
        let name_parts := (parts.filter (fun p => 1 < p.length)).map pyCapitalize
        if name_parts ≠ [] then some (String.intercalate " " name_parts) else none
      else none
    match viaDots with
    | some n => n
    | none =>
      let name := pyTitle ((local_part.replace "_" " ").replace "-" " ")
      if 1 < name.length then name else "Customer"

/-- `generate_template_draft`: template by category, tone adjustment by
sentiment, placeholder substitution, bracketed doc-id references appended
for up to three reranked documents. -/
def generate_template_draft (customer_name category sentiment : String)
    (reranked_docs : List Doc) (_triage : Option TriageData) : DraftData :=
  let template := get_response_template category
  let adjusted := adjust_tone_for_sentiment template sentiment
  let formatted := format_response_template adjusted customer_name "your inquiry" "this feature"
  let body := formatted.body_template
  let body :=
    if reranked_docs.isEmpty then body
    else
      body ++ "\n\nFor more information, please see: " ++
        String.intercalate " " ((reranked_docs.take 3).map (fun d => "[" ++ d.doc_id ++ "]"))
  { greeting := formatted.greeting
    body := body
    closing := "Best regards,\nSupport Team"
    tone := adjusted.tone }

/-- The hard defaults of `get_default_draft_value`. -/
def defaultDraftValue (j : DraftJson) : DraftData :=
  { greeting := j.greeting.getD "Dear Customer,"
    body := j.body.getD "Thank you for your inquiry. We\x27re reviewing your request and will get back to you soon."
    closing := j.closing.getD "Best regards,\nSupport Team"
    tone := j.tone.getD "professional" }

/-- The `generate_draft` node. A raised call lands in the outer handler
(diagnostic appended, template draft for the hardcoded arguments); an
unparseable response takes the template fallback with the customer name,
category, sentiment and reranked documents from the state; a parsed
response has missing fields defaulted. -/
def generate_draft (outcome : CapOutcome DraftJson) (state : WState) : WState :=
  match outcome with
  | .callFail =>
    { state with
        errors := state.errors ++ [ "Draft generation error"]
        draft := some (generate_template_draft "Customer" "General" "neutral" [] none) }
  | _ =>
    let sentiment := (state.intent.map (fun i => i.sentiment)).getD "neutral"
    let category := (state.triage.map (fun t => t.category)).getD "General Inquiry"
    let reranked := state.reranked_docs.getD []
    let customer_name :=
      match state.customer_email with
      | some e => if e ≠ "" then extract_customer_name e else "Customer"
      | none => "Customer"
    let draft_data :=
      match outcome with
      | .ok j => defaultDraftValue j
      | _ => generate_template_draft customer_name category sentiment reranked state.triage
    { state with draft := some draft_data }

/-! The policy-checking agent (`policy_checker.py`, `validators.py`). -/

/-- The literal refund-promise patterns. -/
def refundPatterns : List String :=
  [ "we will refund", "refund you", "process your refund", "refund will be issued"]

/-- The escalation-trigger keywords. -/
def escalationKeywords : List String :=
  [ "legal action", "lawyer", "court", "cancel account", "close account", "delete account"]

/-- `check_policy_violations`: case-insensitive regex checks over the
draft; the returned dictionary has exactly the keys `refund_promise`,
`sla_promise` and `escalation_triggers`. -/
def check_policy_violations (draft : String) : RuleChecks :=
  { refund_promise := refundPatterns.any (fun p => containsCI draft p)
    sla_promise :=
      containsNumPattern "within " " hours" draft ||
      containsNumPattern "fixed in " " days" draft ||
      containsCI draft "resolved by" ||
      containsCI draft "guaranteed"
    escalation_triggers := escalationKeywords.filter (fun k => containsCI draft k) }

/-- The all-clear semantic result returned when the LLM policy call raises
or its response is unparseable: fail open for the semantic check only. -/
def llmPolicyDefault : LlmPolicy :=
  ⟨some false, some false, some false, some "passed", some []⟩

/-- `perform_llm_policy_check`: the parsed dictionary on success, the
all-clear defaults on a raised call or unparseable response. -/
def perform_llm_policy_check (outcome : CapOutcome LlmPolicy) : LlmPolicy :=
  match outcome with
  | .ok p => p
  | _ => llmPolicyDefault

/-- The combination step of `check_policies`. The combined `sla_mentioned`
and `escalation_needed` read keys the rule dictionary does not have
(`rule_based_checks.get("sla_mentioned", False)` and
`rule_based_checks.get("escalation_needed", False)` both yield False, the
rule keys being `sla_promise` and `escalation_triggers`), so only the
semantic values remain; `compliance` likewise tests the rule refund flag,
the absent rule `escalation_needed` key and the semantic verdict. -/
def combinePolicy (rule : RuleChecks) (llm : LlmPolicy) : PolicyData :=
  { refund_promise := rule.refund_promise || llm.refund_promise.getD false
    sla_mentioned := false || llm.sla_mentioned.getD false
    escalation_needed := false || llm.escalation_needed.getD false
    compliance :=
      if !(rule.refund_promise || false || (llm.compliance.getD "passed" == "failed")) then
        "passed"
      else "failed"
    violations := rule.escalation_triggers ++ llm.violations.getD [] }

/-- The draft text `check_policies` scans: greeting, body and closing
joined by blank lines, absent fields read as empty strings. -/
def draftText (draft : Option DraftData) : String :=
  ((draft.map (fun d => d.greeting)).getD "") ++ "\n\n" ++
    ((draft.map (fun d => d.body)).getD "") ++ "\n\n" ++
    ((draft.map (fun d => d.closing)).getD "")

/-- The `check_policies` node: the rule-based check always runs over the
rendered draft, the semantic result (or its fail-open default) is combined
with it. -/
def check_policies (outcome : CapOutcome LlmPolicy) (state : WState) : WState :=
  let rule := check_policy_violations (draftText state.draft)
  let llm := perform_llm_policy_check outcome
  { state with policy_check := some (combinePolicy rule llm) }

/-! The orchestrator (`langgraph_flow.py`, `main.py`). -/

/-- Where the conditional edge goes after `check_policy`: the LangGraph END
sentinel (escalate to human) or the `validate_output` node. -/
inductive GateNext where
  | toEnd
  | toValidate
deriving DecidableEq

/-- `triage.get("confidence", 1.0)` as `should_escalate` reads it. -/
def triageConfidence (state : WState) : ℚ :=
  match state.triage with
  | some t => t.confidence
  | none => 1

/-- The Escalation Gate `should_escalate`: END on a failed policy check, on
any recorded error, or on triage confidence below 0.5; otherwise proceed to
output validation. -/
def should_escalate (state : WState) : GateNext :=
  let complianceFailed :=
    match state.policy_check with
    | some p => p.compliance == "failed"
    | none => false
  if complianceFailed then .toEnd
  else if !state.errors.isEmpty then .toEnd
  else if triageConfidence state < mkRat 1 2 then .toEnd
  else .toValidate

/-- Priority values the output schema's `Literal` admits. -/
def validPriority (p : String) : Bool :=
  p == "P1" || p == "P2" || p == "P3"

/-- Sentiment values the output schema's `Literal` admits. -/
def validSentiment (s : String) : Bool :=
  s == "frustrated" || s == "neutral" || s == "satisfied"

/-- Validation of the `TriageOutput` model: the priority and sentiment
literals (the sentiment key is required) and the confidence bounds. -/
def validTriageOutput (t : TriageData) : Bool :=
  validPriority t.priority &&
    (match t.sentiment with
     | some s => validSentiment s
     | none => false) &&
    decide (0 ≤ t.confidence ∧ t.confidence ≤ 1)

/-- Validation of the `Citation` model: score bounds and an http(s) URL. -/
def validCitation (c : CitationData) : Bool :=
  decide (0 ≤ c.score ∧ c.score ≤ 1) &&
    (c.url.startsWith "http://" || c.url.startsWith "https://")

/-- Validation of the `PolicyCheck` model: the compliance literal. -/
def validPolicyCheck (p : PolicyData) : Bool :=
  p.compliance == "passed" || p.compliance == "failed"

/-- Validation of the `SupportAgentOutput` model over the assembled
dictionary: the timestamp must be a datetime (the explicit None the
assembly passes is rejected), and the nested models must validate. -/
def schemaValid (a : FinalAssembly) : Bool :=
  a.timestamp.isSome &&
    (match a.triage with
     | some t => validTriageOutput t
     | none => false) &&
    a.answer_draft.isSome &&
    a.citations.all validCitation &&
    (match a.policy_check with
     | some p => validPolicyCheck p
     | none => false)

/-- The dictionary `validate_output_node` assembles: the state's components
plus the `timestamp` and `citations` lookups, whose keys no stage writes. -/
def assembleOutput (state : WState) : FinalAssembly :=
  { ticket_id := state.ticket_id
    timestamp := state.timestamp
    triage := state.triage
    answer_draft := state.draft
    citations := state.citations.getD []
    policy_check := state.policy_check }

/-- The `validate_output_node`: on validation success the validated output
is stored; on failure a diagnostic is appended and the unvalidated
dictionary is still stored in `final_output`. -/
def validate_output_node (state : WState) : WState :=
  let fo := assembleOutput state
  if schemaValid fo then
    { state with final_output := some fo }
  else
    { state with
        errors := state.errors ++ [ "Output validation error"]
        final_output := some fo }

/-- The outcomes of every external capability call made during one run,
in pipeline order. -/
structure Env where
  intentOut : CapOutcome IntentJson
  triageOut : CapOutcome TriageJson
  queryOut : CapOutcome (List String)
  searchOut : Except Unit (List SearchHit)
  rerankOut : Except Unit (List Doc)
  draftOut : CapOutcome DraftJson
  policyOut : CapOutcome LlmPolicy

/-- The ticket fields `process_ticket` receives. -/
structure TicketIn where
  ticket_id : String
  message : String
  customer_email : Option String
deriving DecidableEq

/-- The initial workflow state `process_ticket` builds: ticket fields and
an empty error list; every other key absent. -/
def initState (t : TicketIn) : WState :=
  { ticket_id := t.ticket_id
    original_message := t.message
    customer_email := t.customer_email
    intent := none
    triage := none
    search_queries := none
    retrieved_docs := none
    reranked_docs := none
    draft := none
    policy_check := none
    final_output := none
    timestamp := none
    citations := none
    errors := [] }

/-- The linear part of the workflow, `detect_intent` through
`check_policy`. -/
def runToGate (env : Env) (t : TicketIn) : WState :=
  let s := initState t
  let s := detect_intent env.intentOut s
  let s := classify_triage env.triageOut s
  let s := expand_queries env.queryOut s
  let s := vector_search_node env.searchOut s
  let s := rerank_node env.rerankOut s
  let s := generate_draft env.draftOut s
  check_policies env.policyOut s

/-- The complete workflow: the linear stages, then the conditional edge —
END leaves the state as the gate saw it, otherwise `validate_output` runs
and the graph ends. -/
def runWorkflow (env : Env) (t : TicketIn) : WState :=
  let s := runToGate env t
  match should_escalate s with
  | .toEnd => s
  | .toValidate => validate_output_node s

/-- `process_ticket` in `main.py`: run the workflow, raise ValueError when
no `final_output` was produced, then re-validate the output dictionary
against `SupportAgentOutput` (raising on failure); errors model the raised
exceptions that propagate to the caller. -/
def process_ticket (env : Env) (t : TicketIn) : Except String FinalAssembly :=
  let result := runWorkflow env t
  match result.final_output with
  | none => .error "Workflow did not produce final_output"
  | some fo =>
    if schemaValid fo then .ok fo
    else .error "Output failed schema validation"

/-! Theorems about the embedded pipeline. -/

/-- The kernel-computable constant 0.5 as the fraction 1/2. -/
theorem mkRat_half : (mkRat 1 2 : ℚ) = 1/2 := by norm_num

/-- The kernel-computable constant 0.3 as the fraction 3/10. -/
theorem mkRat_three_tenths : (mkRat 3 10 : ℚ) = 3/10 := by norm_num

/-- The kernel-computable constant 0.8 as the fraction 8/10. -/
theorem mkRat_eight_tenths : (mkRat 8 10 : ℚ) = 8/10 := by norm_num

/-- C1: the Escalation Gate is a pure function of the workflow state that
chooses END exactly when the policy check reports failed compliance, the
error list is non-empty, or the triage confidence is below 0.5, and in
every other case proceeds to output validation; in particular a state whose
triage has confidence below 0.5 escalates regardless of the draft and
policy-check content. -/
theorem C1_escalation_gate (state : WState) :
    (should_escalate state = .toEnd ↔
      ((∃ p, state.policy_check = some p ∧ p.compliance = "failed") ∨
        state.errors ≠ [] ∨ triageConfidence state < 1/2)) ∧
    (∀ t : TriageData, state.triage = some t → t.confidence < 1/2 →
      should_escalate state = .toEnd) := by
  have hiff : should_escalate state = .toEnd ↔
      ((∃ p, state.policy_check = some p ∧ p.compliance = "failed") ∨
        state.errors ≠ [] ∨ triageConfidence state < 1/2) := by
    by_cases h3 : triageConfidence state < 1/2
    · rcases hpc : state.policy_check with _ | p
      · rcases herr : state.errors with _ | ⟨e, es⟩
        · simp [should_escalate, hpc, herr, h3, mkRat_half]
        · simp [should_escalate, hpc, herr, h3, mkRat_half]
      · by_cases hc : p.compliance = "failed"
        · rcases herr : state.errors with _ | ⟨e, es⟩
          · simp [should_escalate, hpc, herr, h3, hc, mkRat_half]
          · simp [should_escalate, hpc, herr, h3, hc, mkRat_half]
        · rcases herr : state.errors with _ | ⟨e, es⟩
          · simp [should_escalate, hpc, herr, h3, hc, mkRat_half]
          · simp [should_escalate, hpc, herr, h3, hc, mkRat_half]
    · rcases hpc : state.policy_check with _ | p
      · rcases herr : state.errors with _ | ⟨e, es⟩
        · simp [should_escalate, hpc, herr, h3, mkRat_half]
        · simp [should_escalate, hpc, herr, h3, mkRat_half]
      · by_cases hc : p.compliance = "failed"
        · rcases herr : state.errors with _ | ⟨e, es⟩
          · simp [should_escalate, hpc, herr, h3, hc, mkRat_half]
          · simp [should_escalate, hpc, herr, h3, hc, mkRat_half]
        · rcases herr : state.errors with _ | ⟨e, es⟩
          · simp [should_escalate, hpc, herr, h3, hc, mkRat_half]
          · simp [should_escalate, hpc, herr, h3, hc, mkRat_half]
  refine ⟨hiff, ?_⟩
  intro t ht hconf
  refine hiff.mpr (Or.inr (Or.inr ?_))
  unfold triageConfidence
  rw [ht]
  exact hconf

/-- C5 counterexample: on an unparseable classification response the intent
stage stores confidence 0.5, not 0.0, and appends nothing to the error
list. -/
theorem C5_counterexample :
    ((detect_intent .parseFail (initState ⟨ "TKT-1", "Hello", none⟩)).intent =
      some ⟨ "other", "neutral", mkRat 1 2, some "Failed to parse LLM response"⟩) ∧
    (detect_intent .parseFail (initState ⟨ "TKT-1", "Hello", none⟩)).errors = [] := by
  exact ⟨rfl, rfl⟩

/-- C5 amended: a raised classification call makes the intent stage return
exactly problem type `other`, sentiment `neutral`, confidence 0.0 and
append a diagnostic; an unparseable response instead returns `other`,
`neutral` with confidence 0.5 and leaves the error list unchanged; neither
path raises and both store a usable intent dictionary. -/
theorem C5_intent_fallbacks (state : WState) :
    ((detect_intent .callFail state).intent =
        some ⟨ "other", "neutral", 0, some "Error during processing"⟩ ∧
      (detect_intent .callFail state).errors =
        state.errors ++ [ "Intent detection error"]) ∧
    ((detect_intent .parseFail state).intent =
        some ⟨ "other", "neutral", mkRat 1 2, some "Failed to parse LLM response"⟩ ∧
      (detect_intent .parseFail state).errors = state.errors) := by
  exact ⟨⟨rfl, rfl⟩, ⟨rfl, rfl⟩⟩

/-- C6: in the triage fallback, a frustrated sentiment forces priority P1
and 4 SLA hours for every problem type, overriding the lookup table; any
other sentiment returns the table's base priority and SLA hours unchanged
— concretely P3 and 48 hours for `feature_request`, P2 and 24 hours for
every other problem type (billing, technical, account, other and unknown
keys alike) — and the confidence is 0.5 either way. -/
theorem C6_sentiment_override (problem_type sentiment : String) :
    ((sentiment = "frustrated" →
        (get_fallback_triage problem_type sentiment).priority = "P1" ∧
        (get_fallback_triage problem_type sentiment).sla_hours = 4) ∧
      (sentiment ≠ "frustrated" →
        (get_fallback_triage problem_type sentiment).priority =
          (fallbackBase problem_type).priority ∧
        (get_fallback_triage problem_type sentiment).sla_hours =
          (fallbackBase problem_type).sla_hours) ∧
      (sentiment ≠ "frustrated" → problem_type = "feature_request" →
        (get_fallback_triage problem_type sentiment).priority = "P3" ∧
        (get_fallback_triage problem_type sentiment).sla_hours = 48) ∧
      (sentiment ≠ "frustrated" → problem_type ≠ "feature_request" →
        (get_fallback_triage problem_type sentiment).priority = "P2" ∧
        (get_fallback_triage problem_type sentiment).sla_hours = 24)) ∧
    (get_fallback_triage problem_type sentiment).confidence = 1/2 := by
  have hbase :
      (problem_type = "feature_request" →
        (fallbackBase problem_type).priority = "P3" ∧
        (fallbackBase problem_type).sla_hours = 48) ∧
      (problem_type ≠ "feature_request" →
        (fallbackBase problem_type).priority = "P2" ∧
        (fallbackBase problem_type).sla_hours = 24) := by
    unfold fallbackBase
    split_ifs with h1 h2 h3 h4
    · exact ⟨fun h => absurd (h.symm.trans h1) (by decide), fun _ => ⟨rfl, rfl⟩⟩
    · exact ⟨fun h => absurd (h.symm.trans h2) (by decide), fun _ => ⟨rfl, rfl⟩⟩
    · exact ⟨fun h => absurd (h.symm.trans h3) (by decide), fun _ => ⟨rfl, rfl⟩⟩
    · exact ⟨fun _ => ⟨rfl, rfl⟩, fun h => absurd h4 h⟩
    · exact ⟨fun h => absurd h h4, fun _ => ⟨rfl, rfl⟩⟩
  by_cases h : sentiment = "frustrated"
  · refine ⟨⟨fun _ => ?_, fun hne => absurd h hne, fun hne => absurd h hne,
      fun hne => absurd h hne⟩, mkRat_half⟩
    unfold get_fallback_triage
    dsimp only
    rw [if_pos h]
    exact ⟨rfl, rfl⟩
  · have hform : get_fallback_triage problem_type sentiment =
        { fallbackBase problem_type with confidence := mkRat 1 2 } := by
      unfold get_fallback_triage
      dsimp only
      rw [if_neg h]
    refine ⟨⟨fun hfr => absurd hfr h, fun _ => ?_, fun _ hpt => ?_, fun _ hpt => ?_⟩,
      mkRat_half⟩
    · rw [hform]
      exact ⟨rfl, rfl⟩
    · rw [hform]
      exact hbase.1 hpt
    · rw [hform]
      exact hbase.2 hpt

/-- C6 witness: the override at ("billing", "frustrated") and the explicit
untouched base rows at ("feature_request", "neutral") and
("technical", "satisfied"). -/
theorem C6_witness :
    (get_fallback_triage "billing" "frustrated").priority = "P1" ∧
    (get_fallback_triage "billing" "frustrated").sla_hours = 4 ∧
    (get_fallback_triage "feature_request" "neutral").priority = "P3" ∧
    (get_fallback_triage "feature_request" "neutral").sla_hours = 48 ∧
    (get_fallback_triage "technical" "satisfied").priority = "P2" ∧
    (get_fallback_triage "technical" "satisfied").sla_hours = 24 :=
  ⟨((C6_sentiment_override "billing" "frustrated").1.1 rfl).1,
    ((C6_sentiment_override "billing" "frustrated").1.1 rfl).2,
    ((C6_sentiment_override "feature_request" "neutral").1.2.2.1 (by decide) rfl).1,
    ((C6_sentiment_override "feature_request" "neutral").1.2.2.1 (by decide) rfl).2,
    ((C6_sentiment_override "technical" "satisfied").1.2.2.2 (by decide) (by decide)).1,
    ((C6_sentiment_override "technical" "satisfied").1.2.2.2 (by decide) (by decide)).2⟩

/-- Semantic policy result claiming an escalation is needed while still
reporting compliance passed. -/
def llmEscalationPassed : LlmPolicy :=
  ⟨some false, some false, some true, some "passed", some []⟩

/-- C3 counterexample: on the draft text "Hello" the rule-based check finds
nothing, the semantic check reports `escalation_needed = true` with
compliance "passed", and the combined result keeps compliance "passed"
although `escalation_needed` is true from one source — refuting the claimed
equivalence. -/
theorem C3_counterexample :
    (combinePolicy (check_policy_violations "Hello") llmEscalationPassed).escalation_needed =
      true ∧
    (combinePolicy (check_policy_violations "Hello") llmEscalationPassed).compliance =
      "passed" := by
  exact ⟨rfl, by decide⟩

/-- C3 amended: for every draft text and semantic result, the combined
compliance is "failed" exactly when the rule-based check found a refund
promise or the semantic check itself reports "failed" — the semantic
boolean flags and the rule-based escalation triggers never affect
compliance — and the combined violations list is the concatenation of the
rule-based escalation triggers with the semantic violations. -/
theorem C3_policy_combination (draft : String) (llm : LlmPolicy) :
    ((combinePolicy (check_policy_violations draft) llm).compliance = "failed" ↔
      ((check_policy_violations draft).refund_promise = true ∨
        llm.compliance.getD "passed" = "failed")) ∧
    (combinePolicy (check_policy_violations draft) llm).violations =
      (check_policy_violations draft).escalation_triggers ++ llm.violations.getD [] := by
  constructor
  · by_cases hr : (check_policy_violations draft).refund_promise = true
    · simp [combinePolicy, hr]
    · rw [Bool.not_eq_true] at hr
      by_cases hc : llm.compliance.getD "passed" = "failed"
      · simp [combinePolicy, hr, hc]
      · simp [combinePolicy, hr, hc]
  · rfl

/-- C3 witness: the amended combination law evaluated at a refund-promising
draft and an all-clear semantic result. -/
theorem C3_witness :
    ((combinePolicy (check_policy_violations "we will refund you")
        llmPolicyDefault).compliance = "failed" ↔
      ((check_policy_violations "we will refund you").refund_promise = true ∨
        (llmPolicyDefault.compliance.getD "passed") = "failed")) ∧
    (combinePolicy (check_policy_violations "we will refund you")
        llmPolicyDefault).violations =
      (check_policy_violations "we will refund you").escalation_triggers ++
        (llmPolicyDefault.violations.getD []) :=
  C3_policy_combination "we will refund you" llmPolicyDefault

/-- Everything the deduplication loop keeps has word count in [2, 8]. -/
theorem dedupFilter_wordCount (l : List String) :
    ∀ seen q, q ∈ dedupFilter l seen → 2 ≤ wordCount q ∧ wordCount q ≤ 8 := by
  induction l with
  | nil =>
    intro seen q hq
    simp [dedupFilter] at hq
  | cons x rest ih =>
    intro seen q hq
    unfold dedupFilter at hq
    split at hq
    · rename_i hcond
      rcases List.mem_cons.mp hq with h | h
      · exact h ▸ ⟨hcond.2.1, hcond.2.2⟩
      · exact ih _ q h
    · exact ih _ q hq

/-- The deduplication loop keeps no element twice and nothing already
seen. -/
theorem dedupFilter_nodup (l : List String) :
    ∀ seen, (dedupFilter l seen).Nodup ∧ ∀ q ∈ dedupFilter l seen, q ∉ seen := by
  induction l with
  | nil =>
    intro seen
    simp [dedupFilter]
  | cons x rest ih =>
    intro seen
    unfold dedupFilter
    split
    · rename_i hcond
      obtain ⟨hnd, hdisj⟩ := ih (x :: seen)
      refine ⟨List.nodup_cons.mpr ⟨?_, hnd⟩, ?_⟩
      · intro hmem
        exact (hdisj x hmem) (List.mem_cons_self x seen)
      · intro q hq
        rcases List.mem_cons.mp hq with h | h
        · exact h ▸ hcond.1
        · intro hqseen
          exact (hdisj q h) (List.mem_cons_of_mem x hqseen)
    · exact ih seen

/-- Every problem type's query table starts with a two-word phrase. -/
theorem typeQueries_head (problem_type : String) :
    ∃ q rest, typeQueries problem_type = q :: rest ∧ wordCount q = 2 := by
  unfold typeQueries
  split_ifs
  · exact ⟨ "billing issue", _, rfl, rfl⟩
  · exact ⟨ "technical problem", _, rfl, rfl⟩
  · exact ⟨ "account access", _, rfl, rfl⟩
  · exact ⟨ "new feature", _, rfl, rfl⟩
  · exact ⟨ "general inquiry", _, rfl, rfl⟩

/-- The rule-based fallback always returns one to five queries, each with
word count in [2, 8]. -/
theorem generate_fallback_queries_bounds (tt pt cat : String) :
    generate_fallback_queries tt pt cat ≠ [] ∧
    (generate_fallback_queries tt pt cat).length ≤ 5 ∧
    ∀ q ∈ generate_fallback_queries tt pt cat,
      2 ≤ wordCount q ∧ wordCount q ≤ 8 := by
  obtain ⟨q0, rest, hq, hwc⟩ := typeQueries_head pt
  refine ⟨?_, ?_, ?_⟩
  · unfold generate_fallback_queries
    dsimp only
    rw [hq]
    rw [show List.take 3 (q0 :: rest) = q0 :: List.take 2 rest from rfl]
    rw [List.cons_append]
    unfold dedupFilter
    rw [if_pos ⟨List.not_mem_nil q0, by omega, by omega⟩]
    simp
  · exact List.length_take_le 5 _
  · intro q hmem
    exact dedupFilter_wordCount _ _ q (List.mem_of_mem_take hmem)

/-- The validation loop of `expand_queries` keeps word counts in [3, 10]
and never collects more than five queries. -/
theorem collectValid_bounds (l : List String) :
    ∀ acc, (∀ q ∈ acc, 3 ≤ wordCount q ∧ wordCount q ≤ 10) → acc.length ≤ 4 →
      (∀ q ∈ collectValid l acc, 3 ≤ wordCount q ∧ wordCount q ≤ 10) ∧
      (collectValid l acc).length ≤ 5 := by
  induction l with
  | nil =>
    intro acc hvalid hlen
    exact ⟨by simpa [collectValid] using hvalid, by simp [collectValid]; omega⟩
  | cons x rest ih =>
    intro acc hvalid hlen
    unfold collectValid
    dsimp only
    by_cases hx : 3 ≤ wordCount x ∧ wordCount x ≤ 10
    · rw [if_pos hx]
      have hvalid' : ∀ q ∈ acc ++ [x], 3 ≤ wordCount q ∧ wordCount q ≤ 10 := by
        intro q hq
        rcases List.mem_append.mp hq with h | h
        · exact hvalid q h
        · simp at h
          exact h ▸ hx
      by_cases hstop : 5 ≤ (acc ++ [x]).length
      · rw [if_pos hstop]
        refine ⟨hvalid', ?_⟩
        simp at hstop ⊢
        omega
      · rw [if_neg hstop]
        simp at hstop
        exact ih _ hvalid' (by simp; omega)
    · rw [if_neg hx]
      have hstop : ¬ 5 ≤ acc.length := by omega
      rw [if_neg hstop]
      exact ih _ hvalid hlen

/-- The queries `expand_queries` stores: always at least one, at most five,
every word count in [2, 10]. -/
theorem expand_queries_bounds (outcome : CapOutcome (List String)) (state : WState) :
    ∃ qs, (expand_queries outcome state).search_queries = some qs ∧
      qs ≠ [] ∧ qs.length ≤ 5 ∧
      ∀ q ∈ qs, 2 ≤ wordCount q ∧ wordCount q ≤ 10 := by
  have hfb : ∀ tt pt cat, (generate_fallback_queries tt pt cat) ≠ [] ∧
      (generate_fallback_queries tt pt cat).length ≤ 5 ∧
      ∀ q ∈ generate_fallback_queries tt pt cat,
        2 ≤ wordCount q ∧ wordCount q ≤ 10 := by
    intro tt pt cat
    obtain ⟨h1, h2, h3⟩ := generate_fallback_queries_bounds tt pt cat
    exact ⟨h1, h2, fun q hq => ⟨(h3 q hq).1, le_trans (h3 q hq).2 (by omega)⟩⟩
  have hcv : ∀ qs0 : List String,
      (∀ q ∈ collectValid qs0 [], 2 ≤ wordCount q ∧ wordCount q ≤ 10) ∧
      (collectValid qs0 []).length ≤ 5 := by
    intro qs0
    obtain ⟨h1, h2⟩ := collectValid_bounds qs0 [] (by simp) (by simp)
    exact ⟨fun q hq => ⟨le_trans (by omega) (h1 q hq).1, (h1 q hq).2⟩, h2⟩
  cases outcome with
  | callFail =>
    exact ⟨_, rfl, (hfb _ _ _).1, (hfb _ _ _).2.1, (hfb _ _ _).2.2⟩
  | parseFail =>
    unfold expand_queries
    split
    · rename_i heq
      cases heq
    · dsimp only
      by_cases hempty :
        collectValid
          (generate_fallback_queries state.original_message
            ((state.intent.map (fun i => i.problem_type)).getD "other")
            ((state.triage.map (fun t => t.category)).getD "General Inquiry")) [] = []
      · rw [if_pos hempty]
        exact ⟨_, rfl, (hfb _ _ _).1, (hfb _ _ _).2.1, (hfb _ _ _).2.2⟩
      · rw [if_neg hempty]
        exact ⟨_, rfl, hempty, (hcv _).2, (hcv _).1⟩
  | ok qs0 =>
    unfold expand_queries
    split
    · rename_i heq
      cases heq
    · dsimp only
      by_cases hempty : collectValid qs0 [] = []
      · rw [if_pos hempty]
        exact ⟨_, rfl, (hfb _ _ _).1, (hfb _ _ _).2.1, (hfb _ _ _).2.2⟩
      · rw [if_neg hempty]
        exact ⟨_, rfl, hempty, (hcv _).2, (hcv _).1⟩

/-- The rule-based fallback queries are deduplicated. -/
theorem generate_fallback_queries_nodup (tt pt cat : String) :
    (generate_fallback_queries tt pt cat).Nodup := by
  unfold generate_fallback_queries
  dsimp only
  exact List.Nodup.sublist (List.take_sublist 5 _) (dedupFilter_nodup _ []).1

/-- C7 counterexample: with the expansion capability down and an empty
ticket text, the stored queries are the two-word template phrases — word
count 2, below the claimed lower bound of 3; and when the capability
returns the same valid candidate twice, both copies are stored — the
result is not duplicate-free. -/
theorem C7_counterexample :
    ((expand_queries .callFail (initState ⟨ "TKT-1", "", none⟩)).search_queries =
      some [ "general inquiry", "help needed", "support request"] ∧
      wordCount "general inquiry" = 2) ∧
    ((expand_queries (.ok [ "one two three", "one two three"])
        (initState ⟨ "TKT-2", "", none⟩)).search_queries =
      some [ "one two three", "one two three"] ∧
      ¬ ([ "one two three", "one two three"] : List String).Nodup) := by
  refine ⟨⟨rfl, rfl⟩, rfl, ?_⟩
  decide

/-- C7 amended: on every path the expander stores between 1 and 5 queries,
each with 2 to 10 words. When the capability returns a list with at least
one candidate surviving validation, the stored queries are exactly the
validated candidates: each has 3 to 10 words, but duplicates among them
are kept (the validation loop does not deduplicate). On the rule-based
fallback path the stored queries are deduplicated, but each is only
guaranteed 2 to 8 words — the template phrases are two words long — so
the claimed three-word minimum fails there. -/
theorem C7_query_bounds (state : WState) (outcome : CapOutcome (List String)) :
    (∃ qs, (expand_queries outcome state).search_queries = some qs ∧
      1 ≤ qs.length ∧ qs.length ≤ 5 ∧
      ∀ q ∈ qs, 2 ≤ wordCount q ∧ wordCount q ≤ 10) ∧
    (∀ qs0 : List String, collectValid qs0 [] ≠ [] →
      (expand_queries (.ok qs0) state).search_queries = some (collectValid qs0 []) ∧
      ∀ q ∈ collectValid qs0 [], 3 ≤ wordCount q ∧ wordCount q ≤ 10) ∧
    (∀ tt pt cat,
      1 ≤ (generate_fallback_queries tt pt cat).length ∧
      (generate_fallback_queries tt pt cat).length ≤ 5 ∧
      (generate_fallback_queries tt pt cat).Nodup ∧
      ∀ q ∈ generate_fallback_queries tt pt cat,
        2 ≤ wordCount q ∧ wordCount q ≤ 8) := by
  refine ⟨?_, ?_, ?_⟩
  · obtain ⟨qs, hqs, hne, hlen, hwc⟩ := expand_queries_bounds outcome state
    exact ⟨qs, hqs, List.length_pos.mpr hne, hlen, hwc⟩
  · intro qs0 h
    constructor
    · unfold expand_queries
      dsimp only
      rw [if_neg h]
    · intro q hq
      exact (collectValid_bounds qs0 [] (by simp) (by simp)).1 q hq
  · intro tt pt cat
    obtain ⟨h1, h2, h3⟩ := generate_fallback_queries_bounds tt pt cat
    exact ⟨List.length_pos.mpr h1, h2, generate_fallback_queries_nodup tt pt cat, h3⟩

/-! Shape lemmas: each node only writes its own result keys (and possibly
`errors`) into the state. -/

/-- `detect_intent` writes only `intent` and `errors`. -/
theorem detect_intent_shape (o : CapOutcome IntentJson) (s : WState) :
    ∃ iv ev, detect_intent o s = { s with intent := iv, errors := ev } := by
  cases o <;> exact ⟨_, _, rfl⟩

/-- `classify_triage` writes only `triage` and `errors`. -/
theorem classify_triage_shape (o : CapOutcome TriageJson) (s : WState) :
    ∃ tv ev, classify_triage o s = { s with triage := tv, errors := ev } := by
  cases o <;> exact ⟨_, _, rfl⟩

/-- `expand_queries` writes only `search_queries` and `errors`. -/
theorem expand_queries_shape (o : CapOutcome (List String)) (s : WState) :
    ∃ qv ev, expand_queries o s = { s with search_queries := qv, errors := ev } := by
  cases o <;> exact ⟨_, _, rfl⟩

/-- `vector_search_node` writes only `retrieved_docs` and `errors`. -/
theorem vector_search_shape (o : Except Unit (List SearchHit)) (s : WState) :
    ∃ rv ev, vector_search_node o s = { s with retrieved_docs := rv, errors := ev } := by
  unfold vector_search_node
  dsimp only
  by_cases hq : (s.search_queries.getD []).isEmpty = true
  · rw [if_pos hq]
    exact ⟨_, _, rfl⟩
  · rw [if_neg hq]
    cases o <;> exact ⟨_, _, rfl⟩

/-- `rerank_node` writes only `reranked_docs`. -/
theorem rerank_node_shape (o : Except Unit (List Doc)) (s : WState) :
    ∃ rv, rerank_node o s = { s with reranked_docs := rv } := by
  unfold rerank_node
  dsimp only
  by_cases h : (s.retrieved_docs.getD []).isEmpty = true ∨ (s.search_queries.getD []).isEmpty = true
  · rw [if_pos h]
    exact ⟨_, rfl⟩
  · rw [if_neg h]
    exact ⟨_, rfl⟩

/-- `generate_draft` writes only `draft` and `errors`. -/
theorem generate_draft_shape (o : CapOutcome DraftJson) (s : WState) :
    ∃ dv ev, generate_draft o s = { s with draft := dv, errors := ev } := by
  cases o <;> exact ⟨_, _, rfl⟩

/-- `check_policies` writes only `policy_check`. -/
theorem check_policies_shape (o : CapOutcome LlmPolicy) (s : WState) :
    ∃ pv, check_policies o s = { s with policy_check := pv } := by
  exact ⟨_, rfl⟩

/-- `validate_output_node` writes only `final_output` and `errors`, and
always stores the assembly of the state it received. -/
theorem validate_output_shape (s : WState) :
    ∃ ev, validate_output_node s =
      { s with final_output := some (assembleOutput s), errors := ev } := by
  unfold validate_output_node
  dsimp only
  by_cases h : schemaValid (assembleOutput s) = true
  · rw [if_pos h]
    exact ⟨_, rfl⟩
  · rw [if_neg h]
    exact ⟨_, rfl⟩

/-! The rerank floor. -/

/-- Every document `Reranker.rerank` returns has score at least 0.3, on the
success path (explicit filter) and on the failure path (score overwritten
to 0.5) alike. -/
theorem rerank_floor (documents : List Doc) (outcome : Except Unit (List Doc))
    (top_k : Nat) :
    ∀ d ∈ Reranker.rerank documents outcome top_k, 3/10 ≤ d.score := by
  intro d hd
  unfold Reranker.rerank at hd
  split at hd
  · simp at hd
  · cases outcome with
    | ok reranked =>
      have hd' := List.mem_of_mem_take hd
      unfold Reranker.scoreFilter at hd'
      obtain ⟨a, _, ha⟩ := List.mem_filterMap.mp hd'
      dsimp only at ha
      split at ha
      · rename_i hge
        cases ha
        rw [← mkRat_three_tenths]
        exact hge
      · cases ha
    | error e =>
      obtain ⟨a, _, ha⟩ := List.mem_map.mp hd
      cases ha
      rw [mkRat_half]
      norm_num

/-- Every document `vector_search_node` stores has the placeholder score
0.8. -/
theorem vector_search_scores (o : Except Unit (List SearchHit)) (s : WState) :
    ∀ d ∈ (vector_search_node o s).retrieved_docs.getD [], d.score = mkRat 8 10 := by
  intro d hd
  unfold vector_search_node at hd
  dsimp only at hd
  by_cases hq : (s.search_queries.getD []).isEmpty = true
  · rw [if_pos hq] at hd
    simp at hd
  · rw [if_neg hq] at hd
    cases o with
    | ok hits =>
      simp only [Option.getD_some] at hd
      obtain ⟨a, _, ha⟩ := List.mem_map.mp hd
      cases ha
      rfl
    | error e =>
      simp at hd

/-- If every retrieved document meets the floor, every document
`rerank_node` passes on does too (the pass-through branch keeps the
retrieved scores, the rerank branch filters or overwrites them). -/
theorem rerank_node_floor (o : Except Unit (List Doc)) (s : WState)
    (h : ∀ d ∈ s.retrieved_docs.getD [], 3/10 ≤ d.score) :
    ∀ d ∈ (rerank_node o s).reranked_docs.getD [], 3/10 ≤ d.score := by
  intro d hd
  unfold rerank_node at hd
  dsimp only at hd
  by_cases hc :
      (s.retrieved_docs.getD []).isEmpty = true ∨ (s.search_queries.getD []).isEmpty = true
  · rw [if_pos hc] at hd
    simp only [Option.getD_some] at hd
    exact h d hd
  · rw [if_neg hc] at hd
    simp only [Option.getD_some] at hd
    exact rerank_floor _ o 3 d hd

/-- The state after the rerank node, before the draft stage reads it. -/
def runToRerank (env : Env) (t : TicketIn) : WState :=
  rerank_node env.rerankOut (vector_search_node env.searchOut
    (expand_queries env.queryOut (classify_triage env.triageOut
      (detect_intent env.intentOut (initState t)))))

/-- The linear run is the policy check over the draft over the rerank
state. -/
theorem runToGate_eq (env : Env) (t : TicketIn) :
    runToGate env t =
      check_policies env.policyOut (generate_draft env.draftOut (runToRerank env t)) := rfl

/-- `generate_draft` leaves the reranked documents unchanged. -/
theorem generate_draft_reranked (o : CapOutcome DraftJson) (s : WState) :
    (generate_draft o s).reranked_docs = s.reranked_docs := by
  cases o <;> rfl

/-- `check_policies` leaves the reranked documents unchanged. -/
theorem check_policies_reranked (o : CapOutcome LlmPolicy) (s : WState) :
    (check_policies o s).reranked_docs = s.reranked_docs := rfl

/-- `validate_output_node` leaves the reranked documents unchanged. -/
theorem validate_output_reranked (s : WState) :
    (validate_output_node s).reranked_docs = s.reranked_docs := by
  obtain ⟨ev, h⟩ := validate_output_shape s
  rw [h]

/-- The reranked documents of a full run are those `rerank_node` stored. -/
theorem runWorkflow_reranked_eq (env : Env) (t : TicketIn) :
    (runWorkflow env t).reranked_docs = (runToRerank env t).reranked_docs := by
  have hbase : (runToGate env t).reranked_docs = (runToRerank env t).reranked_docs := by
    rw [runToGate_eq, check_policies_reranked, generate_draft_reranked]
  unfold runWorkflow
  dsimp only
  rcases hg : should_escalate (runToGate env t) with _ | _
  · exact hbase
  · show (validate_output_node (runToGate env t)).reranked_docs = _
    rw [validate_output_reranked]
    exact hbase

/-- C8: no candidate document with score below 0.3 survives the rerank
stage: `Reranker.rerank` output always satisfies the floor (success and
failure paths), and in every full run all documents stored in
`reranked_docs` — the documents the draft stage reads — have score at
least 0.3. -/
theorem C8_rerank_floor :
    (∀ (documents : List Doc) (outcome : Except Unit (List Doc)) (top_k : Nat),
      ∀ d ∈ Reranker.rerank documents outcome top_k, 3/10 ≤ d.score) ∧
    (∀ (env : Env) (t : TicketIn),
      ∀ d ∈ (runWorkflow env t).reranked_docs.getD [], 3/10 ≤ d.score) := by
  refine ⟨rerank_floor, ?_⟩
  intro env t d hd
  rw [runWorkflow_reranked_eq] at hd
  unfold runToRerank at hd
  refine rerank_node_floor env.rerankOut _ ?_ d hd
  intro d' hd'
  rw [vector_search_scores env.searchOut _ d' hd', mkRat_eight_tenths]
  norm_num

/-! Keys no linear-stage node ever writes: `citations`, `timestamp`,
`final_output`. -/

/-- `detect_intent` leaves citations, timestamp and final output alone. -/
theorem detect_intent_untouched (o : CapOutcome IntentJson) (s : WState) :
    (detect_intent o s).citations = s.citations ∧
    (detect_intent o s).timestamp = s.timestamp ∧
    (detect_intent o s).final_output = s.final_output := by
  cases o <;> exact ⟨rfl, rfl, rfl⟩

/-- `classify_triage` leaves citations, timestamp and final output alone. -/
theorem classify_triage_untouched (o : CapOutcome TriageJson) (s : WState) :
    (classify_triage o s).citations = s.citations ∧
    (classify_triage o s).timestamp = s.timestamp ∧
    (classify_triage o s).final_output = s.final_output := by
  cases o <;> exact ⟨rfl, rfl, rfl⟩

/-- `expand_queries` leaves citations, timestamp and final output alone. -/
theorem expand_queries_untouched (o : CapOutcome (List String)) (s : WState) :
    (expand_queries o s).citations = s.citations ∧
    (expand_queries o s).timestamp = s.timestamp ∧
    (expand_queries o s).final_output = s.final_output := by
  cases o <;> exact ⟨rfl, rfl, rfl⟩

/-- `vector_search_node` leaves citations, timestamp and final output
alone. -/
theorem vector_search_untouched (o : Except Unit (List SearchHit)) (s : WState) :
    (vector_search_node o s).citations = s.citations ∧
    (vector_search_node o s).timestamp = s.timestamp ∧
    (vector_search_node o s).final_output = s.final_output := by
  obtain ⟨rv, ev, h⟩ := vector_search_shape o s
  rw [h]
  exact ⟨rfl, rfl, rfl⟩

/-- `rerank_node` leaves citations, timestamp and final output alone. -/
theorem rerank_node_untouched (o : Except Unit (List Doc)) (s : WState) :
    (rerank_node o s).citations = s.citations ∧
    (rerank_node o s).timestamp = s.timestamp ∧
    (rerank_node o s).final_output = s.final_output := by
  obtain ⟨rv, h⟩ := rerank_node_shape o s
  rw [h]
  exact ⟨rfl, rfl, rfl⟩

/-- `generate_draft` leaves citations, timestamp and final output alone. -/
theorem generate_draft_untouched (o : CapOutcome DraftJson) (s : WState) :
    (generate_draft o s).citations = s.citations ∧
    (generate_draft o s).timestamp = s.timestamp ∧
    (generate_draft o s).final_output = s.final_output := by
  cases o <;> exact ⟨rfl, rfl, rfl⟩

/-- `check_policies` leaves citations, timestamp and final output alone. -/
theorem check_policies_untouched (o : CapOutcome LlmPolicy) (s : WState) :
    (check_policies o s).citations = s.citations ∧
    (check_policies o s).timestamp = s.timestamp ∧
    (check_policies o s).final_output = s.final_output := by
  exact ⟨rfl, rfl, rfl⟩

/-- After the linear stages, the citations and timestamp keys are still
absent and no final output has been produced. -/
theorem runToGate_untouched (env : Env) (t : TicketIn) :
    (runToGate env t).citations = none ∧ (runToGate env t).timestamp = none ∧
    (runToGate env t).final_output = none := by
  refine ⟨?_, ?_, ?_⟩ <;>
    simp [runToGate_eq, runToRerank, check_policies_untouched, generate_draft_untouched,
      rerank_node_untouched, vector_search_untouched, expand_queries_untouched,
      classify_triage_untouched, detect_intent_untouched, initState]

/-- C10: in every run, under every capability outcome, the citations key of
the workflow state is never written (it stays absent), and whenever a final
output is assembled its citations list is empty — even though reranked
documents may exist and their doc-ids are appended to the draft body as
bracketed references. -/
theorem C10_citations_empty (env : Env) (t : TicketIn) :
    (runWorkflow env t).citations = none ∧
    (∀ fo, (runWorkflow env t).final_output = some fo → fo.citations = []) := by
  obtain ⟨hc, ht, hf⟩ := runToGate_untouched env t
  unfold runWorkflow
  dsimp only
  rcases hg : should_escalate (runToGate env t) with _ | _
  · refine ⟨hc, ?_⟩
    intro fo hfo
    rw [hf] at hfo
    cases hfo
  · obtain ⟨ev, hv⟩ := validate_output_shape (runToGate env t)
    rw [hv]
    refine ⟨hc, ?_⟩
    intro fo hfo
    have hfo' : assembleOutput (runToGate env t) = fo := by
      simpa using hfo
    rw [← hfo']
    show (runToGate env t).citations.getD [] = []
    rw [hc]
    rfl

/-- When the gate chooses END, the run stops in the state the gate saw. -/
theorem runWorkflow_of_gate_end (env : Env) (t : TicketIn)
    (h : should_escalate (runToGate env t) = .toEnd) :
    runWorkflow env t = runToGate env t := by
  unfold runWorkflow
  dsimp only
  rw [h]

/-- When the gate proceeds, the run ends with output validation. -/
theorem runWorkflow_of_gate_validate (env : Env) (t : TicketIn)
    (h : should_escalate (runToGate env t) = .toValidate) :
    runWorkflow env t = validate_output_node (runToGate env t) := by
  unfold runWorkflow
  dsimp only
  rw [h]

/-- Without a final output, `process_ticket` ends in the raised
ValueError. -/
theorem process_ticket_none (env : Env) (t : TicketIn)
    (h : (runWorkflow env t).final_output = none) :
    process_ticket env t = .error "Workflow did not produce final_output" := by
  unfold process_ticket
  dsimp only
  rw [h]

/-- Any recorded error forces the gate to END, whatever the policy check
says. -/
theorem should_escalate_of_errors (s : WState) (h : s.errors ≠ []) :
    should_escalate s = .toEnd := by
  unfold should_escalate
  dsimp only
  rcases hb : (match s.policy_check with
      | some p => p.compliance == "failed"
      | none => false) with _ | _
  · rw [if_neg (by simp [hb])]
    rw [if_pos (by simp [List.isEmpty_iff, h])]
  · rw [if_pos (by simp [hb])]

/-! The all-capabilities-raise environment and C2. -/

/-- Every capability call raises. -/
def envAllFail : Env :=
  ⟨.callFail, .callFail, .callFail, .error (), .error (), .callFail, .callFail⟩

/-- The state after the linear stages when every capability raised: every
stage substituted its hard fallback and five diagnostics accumulated. -/
theorem runToGate_allFail (t : TicketIn) :
    runToGate envAllFail t =
      { initState t with
          intent := some ⟨ "other", "neutral", 0, some "Error during processing"⟩
          triage := some (get_fallback_triage "other" "neutral")
          search_queries := some (generate_fallback_queries t.message "other" "General")
          retrieved_docs := some []
          reranked_docs := some []
          draft := some (generate_template_draft "Customer" "General" "neutral" [] none)
          policy_check := some (combinePolicy
            (check_policy_violations (draftText
              (some (generate_template_draft "Customer" "General" "neutral" [] none))))
            llmPolicyDefault)
          errors := [ "Intent detection error", "Triage classification error",
            "Query expansion error", "Vector search error", "Draft generation error"] } := by
  show check_policies .callFail (generate_draft .callFail (rerank_node (.error ())
    (vector_search_node (.error ()) (expand_queries .callFail (classify_triage .callFail
      (detect_intent .callFail (initState t))))))) = _
  have h3 : expand_queries .callFail (classify_triage .callFail
      (detect_intent .callFail (initState t))) =
      { initState t with
          intent := some ⟨ "other", "neutral", 0, some "Error during processing"⟩
          triage := some (get_fallback_triage "other" "neutral")
          search_queries := some (generate_fallback_queries t.message "other" "General")
          errors := [ "Intent detection error", "Triage classification error",
            "Query expansion error"] } := rfl
  rw [h3]
  have hq : ¬ ((generate_fallback_queries t.message "other" "General").isEmpty = true) := by
    simp only [List.isEmpty_iff]
    exact (generate_fallback_queries_bounds t.message "other" "General").1
  have h4 : vector_search_node (.error ()) ({ initState t with
      intent := some ⟨ "other", "neutral", 0, some "Error during processing"⟩
      triage := some (get_fallback_triage "other" "neutral")
      search_queries := some (generate_fallback_queries t.message "other" "General")
      errors := [ "Intent detection error", "Triage classification error",
        "Query expansion error"] }) =
      { initState t with
          intent := some ⟨ "other", "neutral", 0, some "Error during processing"⟩
          triage := some (get_fallback_triage "other" "neutral")
          search_queries := some (generate_fallback_queries t.message "other" "General")
          retrieved_docs := some []
          errors := [ "Intent detection error", "Triage classification error",
            "Query expansion error", "Vector search error"] } := by
    unfold vector_search_node
    dsimp only
    simp only [Option.getD_some]
    rw [if_neg hq]
    rfl
  rw [h4]
  rfl

/-- Facts about a run in which every capability raises: the gate escalates
(the error list is non-empty), a fallback draft and triage are in the
state, no final output exists, and `process_ticket` ends in the raised
ValueError rather than a structured result. -/
theorem runAllFail_facts (t : TicketIn) :
    should_escalate (runToGate envAllFail t) = .toEnd ∧
    (runToGate envAllFail t).draft =
      some (generate_template_draft "Customer" "General" "neutral" [] none) ∧
    (runToGate envAllFail t).triage = some (get_fallback_triage "other" "neutral") ∧
    (runWorkflow envAllFail t).final_output = none ∧
    process_ticket envAllFail t = .error "Workflow did not produce final_output" := by
  have hrtg := runToGate_allFail t
  have hgate : should_escalate (runToGate envAllFail t) = .toEnd := by
    refine should_escalate_of_errors _ ?_
    rw [hrtg]
    simp
  have hwork : runWorkflow envAllFail t = runToGate envAllFail t :=
    runWorkflow_of_gate_end envAllFail t hgate
  have hfo : (runWorkflow envAllFail t).final_output = none := by
    rw [hwork, hrtg]
    rfl
  refine ⟨hgate, ?_, ?_, hfo, process_ticket_none envAllFail t hfo⟩
  · rw [hrtg]
  · rw [hrtg]

/-- C2 counterexample: with every capability down on a concrete ticket, the
gate escalates and `process_ticket` raises the ValueError for the missing
final output — the submitter receives a raw exception, not a structured
escalation acknowledgement. -/
theorem C2_counterexample :
    process_ticket envAllFail ⟨ "TKT-1", "Hello", none⟩ =
      .error "Workflow did not produce final_output" :=
  (runAllFail_facts ⟨ "TKT-1", "Hello", none⟩).2.2.2.2

/-- C2 amended: when every external capability call fails, every ticket
still reaches a terminal state — the stages install their deterministic
fallbacks, the accumulated diagnostics force the Escalation Gate to END —
but no final output exists on that path, so `process_ticket` raises
(returns the ValueError) instead of handing the submitter a structured
escalation acknowledgement. -/
theorem C2_total_fallback (t : TicketIn) :
    should_escalate (runToGate envAllFail t) = .toEnd ∧
    (runToGate envAllFail t).draft =
      some (generate_template_draft "Customer" "General" "neutral" [] none) ∧
    (runToGate envAllFail t).triage = some (get_fallback_triage "other" "neutral") ∧
    (runWorkflow envAllFail t).final_output = none ∧
    process_ticket envAllFail t = .error "Workflow did not produce final_output" :=
  runAllFail_facts t

/-! The all-fallback environment (capability calls succeed but return
unparseable data, retrieval raises) and C9. -/

/-- Every capability is forced into its graceful fallback path. -/
def envFallback : Env :=
  ⟨.parseFail, .parseFail, .parseFail, .error (), .error (), .parseFail, .parseFail⟩

/-- The intent dictionary of the parse-failure fallback. -/
def fbIntent : IntentData :=
  ⟨ "other", "neutral", mkRat 1 2, some "Failed to parse LLM response"⟩

/-- The triage dictionary of the fallback path under fallback intent. -/
def fbTriage : TriageData :=
  validateTriage (triageJsonOf (get_fallback_triage "other" "neutral"))

/-- The queries the expander stores on its fallback path. -/
def fbQueries (msg : String) : List String :=
  if collectValid (generate_fallback_queries msg "other" "General Inquiry") [] = [] then
    generate_fallback_queries msg "other" "General Inquiry"
  else
    collectValid (generate_fallback_queries msg "other" "General Inquiry") []

/-- The customer name the draft generator derives from the optional email
address. -/
def custNameOf : Option String → String
  | some e => if e ≠ "" then extract_customer_name e else "Customer"
  | none => "Customer"

/-- The fallback draft: a function of the customer email alone once every
capability is degraded (category and sentiment are the fallback constants
and no documents survive retrieval). -/
def fbDraft (email : Option String) : DraftData :=
  generate_template_draft (custNameOf email) "General Inquiry" "neutral" [] (some fbTriage)

/-- The fallback queries are never empty. -/
theorem fbQueries_ne_nil (msg : String) : fbQueries msg ≠ [] := by
  unfold fbQueries
  split
  · exact (generate_fallback_queries_bounds msg "other" "General Inquiry").1
  · rename_i h
    exact h

/-- The state after the linear stages in the all-fallback environment. -/
theorem runToGate_fallback (t : TicketIn) :
    runToGate envFallback t =
      { initState t with
          intent := some fbIntent
          triage := some fbTriage
          search_queries := some (fbQueries t.message)
          retrieved_docs := some []
          reranked_docs := some []
          draft := some (fbDraft t.customer_email)
          policy_check := some (combinePolicy
            (check_policy_violations (draftText (some (fbDraft t.customer_email))))
            llmPolicyDefault)
          errors := [ "Vector search error"] } := by
  show check_policies .parseFail (generate_draft .parseFail (rerank_node (.error ())
    (vector_search_node (.error ()) (expand_queries .parseFail (classify_triage .parseFail
      (detect_intent .parseFail (initState t))))))) = _
  have h3 : expand_queries .parseFail (classify_triage .parseFail
      (detect_intent .parseFail (initState t))) =
      { initState t with
          intent := some fbIntent
          triage := some fbTriage
          search_queries := some (fbQueries t.message) } := rfl
  rw [h3]
  have hq : ¬ ((fbQueries t.message).isEmpty = true) := by
    simp only [List.isEmpty_iff]
    exact fbQueries_ne_nil t.message
  have h4 : vector_search_node (.error ()) ({ initState t with
      intent := some fbIntent
      triage := some fbTriage
      search_queries := some (fbQueries t.message) }) =
      { initState t with
          intent := some fbIntent
          triage := some fbTriage
          search_queries := some (fbQueries t.message)
          retrieved_docs := some []
          errors := [ "Vector search error"] } := by
    unfold vector_search_node
    dsimp only
    simp only [Option.getD_some]
    rw [if_neg hq]
    rfl
  rw [h4]
  rfl

/-- Draft and triage of a full all-fallback run: the triage is the fallback
constant, the draft depends only on the customer email. -/
theorem runWorkflow_fallback_proj (t : TicketIn) :
    (runWorkflow envFallback t).draft = some (fbDraft t.customer_email) ∧
    (runWorkflow envFallback t).triage = some fbTriage := by
  have hrtg := runToGate_fallback t
  rcases hg : should_escalate (runToGate envFallback t) with _ | _
  · rw [runWorkflow_of_gate_end envFallback t hg, hrtg]
    exact ⟨rfl, rfl⟩
  · obtain ⟨ev, hv⟩ := validate_output_shape (runToGate envFallback t)
    rw [runWorkflow_of_gate_validate envFallback t hg, hv, hrtg]
    exact ⟨rfl, rfl⟩

/-- C9: with every capability forced into its fallback path, two runs on
tickets with identical message text and identical customer email produce
identical Draft and TriageResult — the template selection, name
extraction, tone adjustment and triage lookup table are deterministic
functions of those inputs (the other ticket fields do not influence
them). -/
theorem C9_fallback_determinism (t1 t2 : TicketIn)
    (hm : t1.message = t2.message) (he : t1.customer_email = t2.customer_email) :
    (runWorkflow envFallback t1).draft = (runWorkflow envFallback t2).draft ∧
    (runWorkflow envFallback t1).triage = (runWorkflow envFallback t2).triage := by
  obtain ⟨hd1, ht1⟩ := runWorkflow_fallback_proj t1
  obtain ⟨hd2, ht2⟩ := runWorkflow_fallback_proj t2
  refine ⟨?_, ?_⟩
  · rw [hd1, hd2, he]
  · rw [ht1, ht2]

/-- C9 witness: two concrete tickets differing only in ticket id yield the
same fallback draft and triage. -/
theorem C9_witness :
    (runWorkflow envFallback ⟨ "TKT-A", "my app is broken", some "jane.roe@x.com"⟩).draft =
      (runWorkflow envFallback ⟨ "TKT-B", "my app is broken", some "jane.roe@x.com"⟩).draft ∧
    (runWorkflow envFallback ⟨ "TKT-A", "my app is broken", some "jane.roe@x.com"⟩).triage =
      (runWorkflow envFallback ⟨ "TKT-B", "my app is broken", some "jane.roe@x.com"⟩).triage :=
  C9_fallback_determinism _ _ rfl rfl

/-! Output-schema failure on the finalize path and C4. -/

/-- A fully successful environment: every capability returns parseable,
policy-clean data with high confidence. -/
def envFinalize : Env :=
  { intentOut := .ok ⟨some "billing", some "neutral", some (mkRat 9 10), none⟩
    triageOut := .ok ⟨some "Billing - Invoice Issue", some "Duplicate Charge",
      some "P2", some 24, some "Finance Team", some (mkRat 9 10), none⟩
    queryOut := .ok [ "a b c"]
    searchOut := .ok []
    rerankOut := .ok []
    draftOut := .ok ⟨some "Hi,", some "Ok.", some "Bye", some "professional"⟩
    policyOut := .ok ⟨some false, some false, some false, some "passed", some []⟩ }

/-- C4 counterexample: a concrete run that reaches the finalize path (the
gate proceeds to output validation), whose assembled output fails schema
validation; the run is not re-routed to escalation — the invalid assembly
is stored in `final_output` and `process_ticket` ends in the re-validation
exception. -/
theorem C4_counterexample :
    should_escalate (runToGate envFinalize ⟨ "TKT-9", "Hi", none⟩) = .toValidate ∧
    schemaValid (assembleOutput (runToGate envFinalize ⟨ "TKT-9", "Hi", none⟩)) = false ∧
    (runWorkflow envFinalize ⟨ "TKT-9", "Hi", none⟩).final_output =
      some (assembleOutput (runToGate envFinalize ⟨ "TKT-9", "Hi", none⟩)) ∧
    process_ticket envFinalize ⟨ "TKT-9", "Hi", none⟩ =
      .error "Output failed schema validation" := by
  exact ⟨rfl, rfl, rfl, rfl⟩

/-- C4 amended: when the run reaches output validation and the assembled
FinalOutput fails the schema, `validate_output_node` records a diagnostic
and still stores the unvalidated assembly in `final_output`; the run is not
downgraded to an escalation, and `process_ticket` raises on its own
re-validation, so the invalid output is not returned to the caller — the
caller sees an exception instead. -/
theorem C4_schema_failure (env : Env) (t : TicketIn)
    (hgate : should_escalate (runToGate env t) = .toValidate)
    (hinvalid : schemaValid (assembleOutput (runToGate env t)) = false) :
    (runWorkflow env t).final_output = some (assembleOutput (runToGate env t)) ∧
    (runWorkflow env t).errors =
      (runToGate env t).errors ++ [ "Output validation error"] ∧
    process_ticket env t = .error "Output failed schema validation" := by
  have hrun : runWorkflow env t = validate_output_node (runToGate env t) :=
    runWorkflow_of_gate_validate env t hgate
  have hval : validate_output_node (runToGate env t) =
      { runToGate env t with
          final_output := some (assembleOutput (runToGate env t))
          errors := (runToGate env t).errors ++ [ "Output validation error"] } := by
    unfold validate_output_node
    dsimp only
    rw [if_neg (by rw [hinvalid]; exact Bool.false_ne_true)]
  refine ⟨?_, ?_, ?_⟩
  · rw [hrun, hval]
  · rw [hrun, hval]
  · unfold process_ticket
    rw [hrun, hval]
    dsimp only
    rw [if_neg (by rw [hinvalid]; exact Bool.false_ne_true)]

/-- C4 witness: the schema-failure law applied to the concrete finalize
run. -/
theorem C4_witness :
    (runWorkflow envFinalize ⟨ "TKT-9", "Hi", none⟩).final_output =
      some (assembleOutput (runToGate envFinalize ⟨ "TKT-9", "Hi", none⟩)) ∧
    (runWorkflow envFinalize ⟨ "TKT-9", "Hi", none⟩).errors =
      (runToGate envFinalize ⟨ "TKT-9", "Hi", none⟩).errors ++
        [ "Output validation error"] ∧
    process_ticket envFinalize ⟨ "TKT-9", "Hi", none⟩ =
      .error "Output failed schema validation" :=
  C4_schema_failure envFinalize ⟨ "TKT-9", "Hi", none⟩ rfl rfl

end SupportAI
